import Mathlib

/-!
# Verification of the backtest statistics aggregation and reporting pipeline

Shallow embedding of `src/src/make_train_histograms.py`,
`src/src/plot_train_results.py` and `src/deep_rl_portfolio.py` from the
`drl-crypto-portfolio-management` repository.

Conventions of the embedding:
* Python floats are modelled as exact rationals (`ℚ`); `numpy` reductions
  that stay in the rationals (`np.mean`) are rational functions, while
  `np.std` (which takes a square root) lands in `ℝ`.
* A JSON training-history dictionary (insertion ordered, keyed by timestamp
  strings) is modelled as an association list `List (String × TrainRun)`.
* Fallible operations (indexing an empty list, reading a missing file) are
  modelled with `Option` / `Except`.
-/

namespace DrlCrypto

/-- Per-agent backtest statistics as stored in one entry of the training
history JSON (the `"dynamic"`, `"static"` and `"eq_weight"` sub-dicts). -/
structure AgentStats where
  pf_value : ℚ
  mdd : ℚ
  sharpe_ratio : ℚ
  deriving Repr, DecidableEq

/-- One training run of the history JSON: the value
`history_dict[timestamp]` read by `make_train_histograms`.  The
`test_start`, `test_end` and `trading_period_length` keys are optional in
the JSON (the Python code guards them with `if key in session_stats`). -/
structure TrainRun where
  dynamic : AgentStats
  static : AgentStats
  eq_weight : AgentStats
  initial_weights : List ℚ
  asset_list : List String
  test_start : Option String
  test_end : Option String
  trading_period_length : Option String
  deriving Repr, DecidableEq

/-- A training-history dictionary keyed by run timestamps, in insertion
order (Python dicts preserve insertion order). -/
abbrev History := List (String × TrainRun)

/-- The filter predicate of `filter_history_dict`
(`make_train_histograms.py` lines 185-195): a run is kept unless some
initial weight is negative (`any(value < 0 for value in initial_weights)`)
or some initial weight exceeds `0.7`
(`any(value > 0.7 for value in initial_weights)`). -/
def keepRun (t : TrainRun) : Bool :=
  !(t.initial_weights.any fun v => decide (v < 0)) &&
  !(t.initial_weights.any fun v => decide (v > 7/10))

/-- Embedding of `filter_history_dict` (`make_train_histograms.py` lines 180-197):
keeps, in iteration order and unchanged, exactly the runs passing
`keepRun`. -/
def filter_history_dict (history_dict : History) : History :=
  history_dict.filter fun p => keepRun p.2

/-- C2: `filter_history_dict` returns exactly the sub-dictionary of runs
whose `initial_weights` contain no element strictly below `0` and no
element strictly above `0.7`; kept runs map to their input data
unchanged, violating runs are absent. -/
theorem filter_history_dict_exact (h : History) :
    filter_history_dict h =
      h.filter (fun p => decide (∀ w ∈ p.2.initial_weights, 0 ≤ w ∧ w ≤ 7/10)) ∧
    ∀ k : String, ∀ v : TrainRun,
      ((k, v) ∈ filter_history_dict h ↔
        (k, v) ∈ h ∧ ∀ w ∈ v.initial_weights, 0 ≤ w ∧ w ≤ 7/10) := by
  have hpred : ∀ t : TrainRun,
      keepRun t = true ↔ ∀ w ∈ t.initial_weights, 0 ≤ w ∧ w ≤ 7/10 := by
    intro t
    simp only [keepRun, Bool.and_eq_true, Bool.not_eq_true', List.any_eq_false,
      decide_eq_true_eq, not_lt, gt_iff_lt]
    constructor
    · rintro ⟨h1, h2⟩ w hw
      exact ⟨h1 w hw, h2 w hw⟩
    · intro hall
      exact ⟨fun w hw => (hall w hw).1, fun w hw => (hall w hw).2⟩
  constructor
  · refine List.filter_congr ?_
    intro p _
    rw [Bool.eq_iff_iff]
    simp only [decide_eq_true_eq]
    exact hpred p.2
  · intro k v
    simp only [filter_history_dict, List.mem_filter]
    rw [hpred v]

/-- Embedding of `np.mean` on a list of rationals: the arithmetic mean
`sum / length` (Lean's rational division gives `0` for the empty list,
where numpy would produce `nan`; no claim exercises that case). -/
def npMean (l : List ℚ) : ℚ := l.sum / l.length

/-- Population variance: the arithmetic mean of the squared deviations
from the mean (numpy's default `ddof=0`). -/
def npVar (l : List ℚ) : ℚ := npMean (l.map fun x => (x - npMean l) ^ 2)

/-- Embedding of `np.std` on a list of rationals: the population standard deviation,
the square root of the population variance. -/
noncomputable def npStd (l : List ℚ) : ℝ := Real.sqrt ((npVar l : ℚ) : ℝ)

/-- Python `list[i]` for rational lists.  Out-of-range access raises
`IndexError` in Python; it is modelled with default `0` and never
exercised out of range by the claims. -/
def pyGetItem (l : List ℚ) (i : ℕ) : ℚ := l.getD i 0

/-- The dictionary returned by `aggregate_backtest_stats`
(`make_train_histograms.py` lines 159-177). -/
structure BacktestStats where
  dynamic_pf_values : List ℚ
  dynamic_mdds : List ℚ
  dynamic_sharpe_ratios : List ℚ
  static_pf_values : List ℚ
  static_mdds : List ℚ
  static_sharpe_ratios : List ℚ
  cash_investments : List ℚ
  crypto_weight_averages : List ℚ
  crypto_weight_std_devs : List ℝ
  first_key : String
  asset_list : List String
  eq_pf_value : ℚ
  eq_sharpe_ratio : ℚ
  eq_mdd : ℚ
  test_start : String
  test_end : String
  trading_period_length : String

/-- The state of the accumulator lists before the `for` loop of
`aggregate_backtest_stats` (lines 109-129): empty metric lists, the
header fields taken from the first entry of the filtered history, and
the `"NA"` defaults. -/
def initialStats (first : String × TrainRun) : BacktestStats :=
  { dynamic_pf_values := []
    dynamic_mdds := []
    dynamic_sharpe_ratios := []
    static_pf_values := []
    static_mdds := []
    static_sharpe_ratios := []
    cash_investments := []
    crypto_weight_averages := []
    crypto_weight_std_devs := []
    first_key := first.1
    asset_list := first.2.asset_list
    eq_pf_value := first.2.eq_weight.pf_value
    eq_sharpe_ratio := first.2.eq_weight.sharpe_ratio
    eq_mdd := first.2.eq_weight.mdd
    test_start := "NA"
    test_end := "NA"
    trading_period_length := "NA" }

/-- The `for timestamp, session_stats in filtered_history.items()` loop of
`aggregate_backtest_stats` (lines 131-157): appends each run's metrics to
the accumulator lists in iteration order and keeps the last seen
`test_start` / `test_end` / `trading_period_length` keys. -/
noncomputable def aggLoop : History → BacktestStats → BacktestStats
  | [], acc => acc
  | (_, s) :: rest, acc =>
      aggLoop rest
        { acc with
          test_start := s.test_start.getD acc.test_start
          test_end := s.test_end.getD acc.test_end
          trading_period_length :=
            s.trading_period_length.getD acc.trading_period_length
          dynamic_pf_values := acc.dynamic_pf_values ++ [s.dynamic.pf_value]
          dynamic_mdds := acc.dynamic_mdds ++ [s.dynamic.mdd]
          dynamic_sharpe_ratios :=
            acc.dynamic_sharpe_ratios ++ [s.dynamic.sharpe_ratio]
          static_pf_values := acc.static_pf_values ++ [s.static.pf_value]
          static_mdds := acc.static_mdds ++ [s.static.mdd]
          static_sharpe_ratios :=
            acc.static_sharpe_ratios ++ [s.static.sharpe_ratio]
          cash_investments :=
            acc.cash_investments ++ [pyGetItem s.initial_weights 0]
          crypto_weight_averages :=
            acc.crypto_weight_averages ++ [npMean (s.initial_weights.drop 1)]
          crypto_weight_std_devs :=
            acc.crypto_weight_std_devs ++ [npStd (s.initial_weights.drop 1)] }

/-- Embedding of `aggregate_backtest_stats` (lines 108-177).  Line 121 takes
`list(filtered_history.keys())[0]`, which raises `IndexError` on an
empty filtered history; the failure is modelled by `none`. -/
noncomputable def aggregate_backtest_stats : History → Option BacktestStats
  | [] => none
  | first :: rest => some (aggLoop (first :: rest) (initialStats first))

theorem aggLoop_dynamic_pf_values (runs : History) (acc : BacktestStats) :
    (aggLoop runs acc).dynamic_pf_values =
      acc.dynamic_pf_values ++ runs.map fun p => p.2.dynamic.pf_value := by
  induction runs generalizing acc with
  | nil => simp [aggLoop]
  | cons r rest ih => cases r with | mk k s => simp [aggLoop, ih]

theorem aggLoop_dynamic_mdds (runs : History) (acc : BacktestStats) :
    (aggLoop runs acc).dynamic_mdds =
      acc.dynamic_mdds ++ runs.map fun p => p.2.dynamic.mdd := by
  induction runs generalizing acc with
  | nil => simp [aggLoop]
  | cons r rest ih => cases r with | mk k s => simp [aggLoop, ih]

theorem aggLoop_dynamic_sharpe_ratios (runs : History) (acc : BacktestStats) :
    (aggLoop runs acc).dynamic_sharpe_ratios =
      acc.dynamic_sharpe_ratios ++ runs.map fun p => p.2.dynamic.sharpe_ratio := by
  induction runs generalizing acc with
  | nil => simp [aggLoop]
  | cons r rest ih => cases r with | mk k s => simp [aggLoop, ih]

theorem aggLoop_static_pf_values (runs : History) (acc : BacktestStats) :
    (aggLoop runs acc).static_pf_values =
      acc.static_pf_values ++ runs.map fun p => p.2.static.pf_value := by
  induction runs generalizing acc with
  | nil => simp [aggLoop]
  | cons r rest ih => cases r with | mk k s => simp [aggLoop, ih]

theorem aggLoop_static_mdds (runs : History) (acc : BacktestStats) :
    (aggLoop runs acc).static_mdds =
      acc.static_mdds ++ runs.map fun p => p.2.static.mdd := by
  induction runs generalizing acc with
  | nil => simp [aggLoop]
  | cons r rest ih => cases r with | mk k s => simp [aggLoop, ih]

theorem aggLoop_static_sharpe_ratios (runs : History) (acc : BacktestStats) :
    (aggLoop runs acc).static_sharpe_ratios =
      acc.static_sharpe_ratios ++ runs.map fun p => p.2.static.sharpe_ratio := by
  induction runs generalizing acc with
  | nil => simp [aggLoop]
  | cons r rest ih => cases r with | mk k s => simp [aggLoop, ih]

theorem aggLoop_cash_investments (runs : History) (acc : BacktestStats) :
    (aggLoop runs acc).cash_investments =
      acc.cash_investments ++ runs.map fun p => pyGetItem p.2.initial_weights 0 := by
  induction runs generalizing acc with
  | nil => simp [aggLoop]
  | cons r rest ih => cases r with | mk k s => simp [aggLoop, ih]

theorem aggLoop_crypto_weight_averages (runs : History) (acc : BacktestStats) :
    (aggLoop runs acc).crypto_weight_averages =
      acc.crypto_weight_averages ++
        runs.map fun p => npMean (p.2.initial_weights.drop 1) := by
  induction runs generalizing acc with
  | nil => simp [aggLoop]
  | cons r rest ih => cases r with | mk k s => simp [aggLoop, ih]

theorem aggLoop_crypto_weight_std_devs (runs : History) (acc : BacktestStats) :
    (aggLoop runs acc).crypto_weight_std_devs =
      acc.crypto_weight_std_devs ++
        runs.map fun p => npStd (p.2.initial_weights.drop 1) := by
  induction runs generalizing acc with
  | nil => simp [aggLoop]
  | cons r rest ih => cases r with | mk k s => simp [aggLoop, ih]

/-- C1: on a non-empty filtered history, `aggregate_backtest_stats`
returns parallel lists, one element per kept run in iteration order: the
i-th element of the dynamic (resp. static) lists is the i-th run's
dynamic (resp. static) `pf_value` / `mdd` / `sharpe_ratio`,
`cash_investments` holds element 0 of each run's `initial_weights`,
`crypto_weight_averages` the arithmetic mean of `initial_weights[1:]`,
and `crypto_weight_std_devs` its population standard deviation. -/
theorem aggregate_backtest_stats_parallel_lists
    (r : String × TrainRun) (rs : History) :
    ∃ st : BacktestStats,
      aggregate_backtest_stats (r :: rs) = some st ∧
      st.dynamic_pf_values = (r :: rs).map (fun p => p.2.dynamic.pf_value) ∧
      st.dynamic_mdds = (r :: rs).map (fun p => p.2.dynamic.mdd) ∧
      st.dynamic_sharpe_ratios = (r :: rs).map (fun p => p.2.dynamic.sharpe_ratio) ∧
      st.static_pf_values = (r :: rs).map (fun p => p.2.static.pf_value) ∧
      st.static_mdds = (r :: rs).map (fun p => p.2.static.mdd) ∧
      st.static_sharpe_ratios = (r :: rs).map (fun p => p.2.static.sharpe_ratio) ∧
      st.cash_investments = (r :: rs).map (fun p => pyGetItem p.2.initial_weights 0) ∧
      st.crypto_weight_averages =
        (r :: rs).map (fun p => npMean (p.2.initial_weights.drop 1)) ∧
      st.crypto_weight_std_devs =
        (r :: rs).map (fun p => npStd (p.2.initial_weights.drop 1)) := by
  refine ⟨aggLoop (r :: rs) (initialStats r), rfl, ?_, ?_, ?_, ?_, ?_, ?_, ?_, ?_, ?_⟩
  · rw [aggLoop_dynamic_pf_values]; simp [initialStats]
  · rw [aggLoop_dynamic_mdds]; simp [initialStats]
  · rw [aggLoop_dynamic_sharpe_ratios]; simp [initialStats]
  · rw [aggLoop_static_pf_values]; simp [initialStats]
  · rw [aggLoop_static_mdds]; simp [initialStats]
  · rw [aggLoop_static_sharpe_ratios]; simp [initialStats]
  · rw [aggLoop_cash_investments]; simp [initialStats]
  · rw [aggLoop_crypto_weight_averages]; simp [initialStats]
  · rw [aggLoop_crypto_weight_std_devs]; simp [initialStats]

/-- The close-price test segment used by `_get_btc_price_data_for_period`
(`plot_train_results.py` lines 187-189):
`data.close[train_test_val_steps["train"] + train_test_val_steps["validation"]:]`. -/
def btc_test_segment (close : List ℚ) (train_steps validation_steps : ℕ) : List ℚ :=
  close.drop (train_steps + validation_steps)

/-- Embedding of `btc_data_test_period.pct_change()[i]` for `i ≥ 1`: the relative
change `seg[i] / seg[i-1] - 1` of consecutive close prices (pandas puts
`NaN` at index 0, which the loop never reads). -/
def pct_change_at (seg : List ℚ) (i : ℕ) : ℚ :=
  pyGetItem seg i / pyGetItem seg (i - 1) - 1

/-- The value at index `k` of the BTC buy-and-hold series built by the
loop of `_get_btc_price_data_for_period` (lines 196-205): index 0 holds
the configured initial portfolio value, index `k+1` holds the previous
value times `(current_price_diff + 1)`. -/
def btc_price_value (initial : ℚ) (seg : List ℚ) : ℕ → ℚ
  | 0 => initial
  | k + 1 => btc_price_value initial seg k * (pct_change_at seg (k + 1) + 1)

/-- The `btc_price_data` series of `_get_btc_price_data_for_period`: one
initial element plus one element per loop iteration
(`for idx in range(1, len(btc_data_price_diffs))`), so its length is
`max 1 seg.length`. -/
def btc_price_data (initial : ℚ) (seg : List ℚ) : List ℚ :=
  (List.range (max 1 seg.length)).map (btc_price_value initial seg)

theorem btc_price_data_length (initial : ℚ) (seg : List ℚ) :
    (btc_price_data initial seg).length = max 1 seg.length := by
  simp [btc_price_data]

theorem btc_price_data_getD (initial : ℚ) (seg : List ℚ) (k : ℕ)
    (hk : k < max 1 seg.length) :
    (btc_price_data initial seg).getD k 0 = btc_price_value initial seg k := by
  simp [btc_price_data, List.getD_eq_getElem?_getD, List.getElem?_map,
    List.getElem?_range, hk]

theorem btc_price_value_closed (initial : ℚ) (seg : List ℚ)
    (hnz : ∀ x ∈ seg, x ≠ 0) (k : ℕ) (hk : k < seg.length) :
    btc_price_value initial seg k = initial * pyGetItem seg k / pyGetItem seg 0 := by
  have hmem : ∀ i, i < seg.length → pyGetItem seg i ≠ 0 := by
    intro i hi
    have : seg.getD i 0 = seg.get ⟨i, hi⟩ := by
      simp [List.getD_eq_getElem?_getD, List.getElem?_eq_getElem hi]
    rw [pyGetItem, this]
    exact hnz _ (List.get_mem seg i hi)
  induction k with
  | zero =>
    have h0 : pyGetItem seg 0 ≠ 0 := hmem 0 hk
    rw [btc_price_value]
    field_simp
  | succ k ih =>
    have hk' : k < seg.length := Nat.lt_of_succ_lt hk
    have hkz : pyGetItem seg k ≠ 0 := hmem k hk'
    have h0 : pyGetItem seg 0 ≠ 0 := hmem 0 (Nat.lt_of_le_of_lt (Nat.zero_le k) hk')
    rw [btc_price_value, ih hk', pct_change_at]
    have : (k + 1 : ℕ) - 1 = k := rfl
    rw [this]
    field_simp
    ring

/-- C3: the BTC buy-and-hold series starts at the configured initial
portfolio value; every subsequent element equals the previous element
times one plus the close-price percentage change of that period over the
test segment (close prices from index `train_steps + validation_steps`
onward); hence under exact arithmetic every element `k` of the series
equals `initial * close[k] / close[0]` of that segment. -/
theorem btc_price_series_spec (initial : ℚ) (close : List ℚ)
    (train_steps validation_steps : ℕ)
    (hnz : ∀ x ∈ btc_test_segment close train_steps validation_steps, x ≠ 0) :
    (btc_price_data initial (btc_test_segment close train_steps validation_steps)).getD 0 0
        = initial ∧
    (∀ k, k + 1 < (btc_test_segment close train_steps validation_steps).length →
      (btc_price_data initial (btc_test_segment close train_steps validation_steps)).getD (k + 1) 0 =
        (btc_price_data initial (btc_test_segment close train_steps validation_steps)).getD k 0 *
          (pct_change_at (btc_test_segment close train_steps validation_steps) (k + 1) + 1)) ∧
    (∀ k, k < (btc_test_segment close train_steps validation_steps).length →
      (btc_price_data initial (btc_test_segment close train_steps validation_steps)).getD k 0 =
        initial * pyGetItem (btc_test_segment close train_steps validation_steps) k /
          pyGetItem (btc_test_segment close train_steps validation_steps) 0) := by
  refine ⟨?_, ?_, ?_⟩
  · rw [btc_price_data_getD initial _ 0 (Nat.lt_of_lt_of_le Nat.zero_lt_one (Nat.le_max_left _ _))]
    rfl
  · intro k hk
    rw [btc_price_data_getD initial _ (k + 1) (Nat.lt_of_lt_of_le hk (Nat.le_max_right _ _)),
      btc_price_data_getD initial _ k
        (Nat.lt_of_lt_of_le (Nat.lt_of_succ_lt hk) (Nat.le_max_right _ _))]
    rfl
  · intro k hk
    rw [btc_price_data_getD initial _ k (Nat.lt_of_lt_of_le hk (Nat.le_max_right _ _))]
    exact btc_price_value_closed initial _ hnz k hk

/-- Witness for C3 at `close = [3, 1, 2, 4]`, one train step, one
validation step (so the test segment is `[2, 4]`) and initial portfolio
value `100`. -/
theorem btc_price_series_spec_witness :
    (∀ x ∈ btc_test_segment [3, 1, 2, 4] 1 1, x ≠ (0 : ℚ)) ∧
    ((btc_price_data 100 (btc_test_segment [3, 1, 2, 4] 1 1)).getD 0 0 = (100 : ℚ) ∧
    (∀ k, k + 1 < (btc_test_segment [3, 1, 2, 4] 1 1).length →
      (btc_price_data 100 (btc_test_segment [3, 1, 2, 4] 1 1)).getD (k + 1) 0 =
        (btc_price_data 100 (btc_test_segment [3, 1, 2, 4] 1 1)).getD k 0 *
          (pct_change_at (btc_test_segment [3, 1, 2, 4] 1 1) (k + 1) + 1)) ∧
    (∀ k, k < (btc_test_segment [3, 1, 2, 4] 1 1).length →
      (btc_price_data 100 (btc_test_segment [3, 1, 2, 4] 1 1)).getD k 0 =
        100 * pyGetItem (btc_test_segment [3, 1, 2, 4] 1 1) k /
          pyGetItem (btc_test_segment [3, 1, 2, 4] 1 1) 0)) :=
  ⟨by decide, btc_price_series_spec 100 [3, 1, 2, 4] 1 1 (by decide)⟩

theorem str_append_assoc (a b c : String) : a ++ b ++ c = a ++ (b ++ c) := by
  cases a with | mk da =>
  cases b with | mk db =>
  cases c with | mk dc =>
  show String.mk (da ++ db ++ dc) = String.mk (da ++ (db ++ dc))
  rw [List.append_assoc]

/-- Constant `JSON_OUTPUT_DIR` (`make_train_histograms.py` line 10). -/
def JSON_OUTPUT_DIR : String := "train_jsons/"

/-- Constant `HISTOGRAM_OUTPUT_DIR` (`make_train_histograms.py` line 12). -/
def HISTOGRAM_OUTPUT_DIR : String := "train_histograms/"

/-- Constant `OUTPUT_DIR` (`plot_train_results.py` line 17). -/
def OUTPUT_DIR : String := "train_graphs/"

/-- Constant `DATA_DIR` (`plot_train_results.py` line 16). -/
def DATA_DIR : String := "crypto_data/"

/-- The JSON input path of `make_train_histograms` (line 19):
`os.path.join(JSON_OUTPUT_DIR, f"train_history_{session_name}.json")`.
Since the directory constant ends in `/`, `os.path.join` concatenates. -/
def json_path (session_name : String) : String :=
  JSON_OUTPUT_DIR ++ ("train_history_" ++ session_name ++ ".json")

/-- The PNG output path of `make_train_histograms` (line 102):
`os.path.join(HISTOGRAM_OUTPUT_DIR, f"histogram_{session_name}.png")`. -/
def histogram_output_path (session_name : String) : String :=
  HISTOGRAM_OUTPUT_DIR ++ ("histogram_" ++ session_name ++ ".png")

/-- The `output_fn` selection of `plot_train_results` (lines 66-73):
the session name when the `train_session_name` key is present, else
`"test"` when the `test_mode` key is present and truthy, else the
current timestamp. -/
def plot_output_fn (train_session_name : Option String) (test_mode : Option Bool)
    (timestamp_now : String) : String :=
  match train_session_name with
  | some n => n
  | none =>
    match test_mode with
    | some true => "test"
    | _ => timestamp_now

/-- The PNG output path of `plot_train_results` (line 86):
`os.path.join(OUTPUT_DIR, f"train_results_{output_fn}.png")`. -/
def plot_output_path (output_fn : String) : String :=
  OUTPUT_DIR ++ ("train_results_" ++ output_fn ++ ".png")

/-- The BTC close-price CSV path of `_get_btc_price_data_for_period`
(lines 173-179): `os.path.join(DATA_DIR, "USDT_BTC",
f"{start}-{end}", f"USDT_BTC_{start}-{end}_{period}.csv")`. -/
def btc_price_csv_path (start_date end_date trading_period_length : String) : String :=
  DATA_DIR ++ ("USDT_BTC/" ++ (start_date ++ "-" ++ end_date) ++ "/" ++
    ("USDT_BTC_" ++ (start_date ++ "-" ++ end_date) ++ "_" ++
      trading_period_length ++ ".csv"))

/-- The `btc_price_sharpe` value of `_get_btc_price_data_for_period`
(lines 207-209): `(btc_price_data[idx] - btc_price_data[0]) /
np.std(btc_price_data)`, where `idx` is the leaked last loop index
`len(btc_data_price_diffs) - 1`.  When the loop body never runs
(`seg.length < 2`) the name `idx` is unbound and Python raises
`NameError`, modelled by `none`. -/
noncomputable def btc_price_sharpe (initial : ℚ) (seg : List ℚ) : Option ℝ :=
  if 2 ≤ seg.length then
    some ((((btc_price_data initial seg).getD (seg.length - 1) 0 -
        (btc_price_data initial seg).getD 0 0 : ℚ) : ℝ) /
      npStd (btc_price_data initial seg))
  else none

/-- Embedding of `_get_btc_price_data_for_period` (`plot_train_results.py` lines
163-212) as a whole: reads the BTC close-price CSV for the configured
dates (a missing file raises, modelled by the `read_file` argument
returning `Except.error`, propagated unchanged — the function body has
no handler), then builds the buy-and-hold series and its Sharpe value
from the test segment of the close column. -/
noncomputable def get_btc_price_data_for_period
    (read_file : String → Except String String)
    (parse_csv : String → Except String (List ℚ))
    (start_date end_date trading_period_length : String)
    (portfolio_value : ℚ) (train_steps validation_steps : ℕ) :
    Except String (List ℚ × Option ℝ) :=
  match read_file (btc_price_csv_path start_date end_date trading_period_length) with
  | Except.error e => Except.error e
  | Except.ok contents =>
    match parse_csv contents with
    | Except.error e => Except.error e
    | Except.ok close =>
      Except.ok
        (btc_price_data portfolio_value
            (btc_test_segment close train_steps validation_steps),
          btc_price_sharpe portfolio_value
            (btc_test_segment close train_steps validation_steps))

/-- Embedding of `make_train_histograms` (`make_train_histograms.py` lines 18-105):
opens the training-history JSON at `json_path` (a missing file or a
parse failure raises, modelled by `Except.error` propagated unchanged —
the function body has no handler), filters and aggregates the history,
and on success writes the histogram figure, returning the written PNG
path together with the aggregated statistics. -/
noncomputable def make_train_histograms
    (read_file : String → Except String String)
    (parse_json : String → Except String History) (session_name : String) :
    Except String (String × BacktestStats) :=
  match read_file (json_path session_name) with
  | Except.error e => Except.error e
  | Except.ok contents =>
    match parse_json contents with
    | Except.error e => Except.error e
    | Except.ok history_dict =>
      match aggregate_backtest_stats (filter_history_dict history_dict) with
      | none => Except.error "IndexError: list index out of range"
      | some stats => Except.ok (histogram_output_path session_name, stats)

/-- C9: the Sharpe value reported for the BTC buy-and-hold baseline is
the last element of the baseline series minus its first element, divided
by the population standard deviation of the entire series. -/
theorem btc_price_sharpe_total_gain_over_volatility (initial : ℚ) (seg : List ℚ)
    (h2 : 2 ≤ seg.length) :
    btc_price_sharpe initial seg =
      some ((((btc_price_data initial seg).getLast?.getD 0 -
          (btc_price_data initial seg).headD 0 : ℚ) : ℝ) /
        npStd (btc_price_data initial seg)) := by
  have hlen : (btc_price_data initial seg).length = seg.length := by
    rw [btc_price_data_length]
    exact Nat.max_eq_right (le_trans (by norm_num) h2)
  rw [btc_price_sharpe, if_pos h2]
  have hlast : (btc_price_data initial seg).getD (seg.length - 1) 0 =
      (btc_price_data initial seg).getLast?.getD 0 := by
    rw [List.getD_eq_getElem?_getD, List.getLast?_eq_getElem? (btc_price_data initial seg),
      hlen]
  have hhead : (btc_price_data initial seg).getD 0 0 =
      (btc_price_data initial seg).headD 0 := by
    rw [List.getD_eq_getElem?_getD, List.headD_eq_head?_getD,
      List.head?_eq_getElem? (btc_price_data initial seg)]
  rw [hlast, hhead]

/-- Witness for C9 at initial value `10` and test segment `[1, 2]`. -/
theorem btc_price_sharpe_total_gain_over_volatility_witness :
    2 ≤ ([(1 : ℚ), 2]).length ∧
    btc_price_sharpe 10 [1, 2] =
      some ((((btc_price_data 10 [1, 2]).getLast?.getD 0 -
          (btc_price_data 10 [1, 2]).headD 0 : ℚ) : ℝ) /
        npStd (btc_price_data 10 [1, 2])) :=
  ⟨by decide, btc_price_sharpe_total_gain_over_volatility 10 [1, 2] (by decide)⟩

/-- C5: a missing training-history JSON file or an unparsable one makes
`make_train_histograms` fail with the underlying exception unchanged, and
a missing BTC price CSV makes `_get_btc_price_data_for_period` fail with
the underlying exception unchanged: neither function has a handler, and
no output file is produced on such an error (the error result carries no
written path). -/
theorem uncaught_error_propagation
    (read_file read_file_csv : String → Except String String)
    (parse_json : String → Except String History)
    (parse_csv : String → Except String (List ℚ))
    (session_name start_date end_date trading_period_length : String)
    (portfolio_value : ℚ) (train_steps validation_steps : ℕ) (e : String) :
    (read_file (json_path session_name) = Except.error e →
      make_train_histograms read_file parse_json session_name = Except.error e) ∧
    (∀ contents, read_file (json_path session_name) = Except.ok contents →
      parse_json contents = Except.error e →
      make_train_histograms read_file parse_json session_name = Except.error e) ∧
    (read_file_csv (btc_price_csv_path start_date end_date trading_period_length) =
        Except.error e →
      get_btc_price_data_for_period read_file_csv parse_csv start_date end_date
        trading_period_length portfolio_value train_steps validation_steps =
        Except.error e) := by
  refine ⟨?_, ?_, ?_⟩
  · intro hr
    simp [make_train_histograms, hr]
  · intro contents hr hp
    simp [make_train_histograms, hr, hp]
  · intro hr
    simp [get_btc_price_data_for_period, hr]

/-- Witness for C5: a read that fails with `"FileNotFoundError"`
propagates out of both functions unchanged. -/
theorem uncaught_error_propagation_witness :
    make_train_histograms (fun _ => Except.error "FileNotFoundError")
        (fun _ => Except.ok []) "session" = Except.error "FileNotFoundError" ∧
    get_btc_price_data_for_period (fun _ => Except.error "FileNotFoundError")
        (fun _ => Except.ok []) "20190101" "20190301" "2h" 10000 0 0 =
      Except.error "FileNotFoundError" :=
  ⟨(uncaught_error_propagation (fun _ => Except.error "FileNotFoundError")
      (fun _ => Except.error "FileNotFoundError") (fun _ => Except.ok [])
      (fun _ => Except.ok []) "session" "20190101" "20190301" "2h" 10000 0 0
      "FileNotFoundError").1 rfl,
   (uncaught_error_propagation (fun _ => Except.error "FileNotFoundError")
      (fun _ => Except.error "FileNotFoundError") (fun _ => Except.ok [])
      (fun _ => Except.ok []) "session" "20190101" "20190301" "2h" 10000 0 0
      "FileNotFoundError").2.2 rfl⟩

/-- C8: on the empty history, and on any history whose every run the
weight filter removes, `aggregate_backtest_stats` fails when taking the
first key of the filtered history (modelled by `none`, Python raises
`IndexError`), so `make_train_histograms` cannot produce a report: a
non-empty filtered history is a necessary precondition. -/
theorem aggregate_backtest_stats_needs_nonempty :
    aggregate_backtest_stats [] = none ∧
    (∀ h : History, (∀ p ∈ h, keepRun p.2 = false) →
      aggregate_backtest_stats (filter_history_dict h) = none) ∧
    (∀ (read_file : String → Except String String)
        (parse_json : String → Except String History) (s contents : String)
        (history_dict : History),
      read_file (json_path s) = Except.ok contents →
      parse_json contents = Except.ok history_dict →
      (∀ p ∈ history_dict, keepRun p.2 = false) →
      make_train_histograms read_file parse_json s =
        Except.error "IndexError: list index out of range") := by
  have hfilter : ∀ h : History, (∀ p ∈ h, keepRun p.2 = false) →
      filter_history_dict h = [] := by
    intro h hall
    refine List.filter_eq_nil_iff.mpr ?_
    intro p hp
    simp [hall p hp]
  refine ⟨rfl, ?_, ?_⟩
  · intro h hall
    rw [hfilter h hall]
    rfl
  · intro read_file parse_json s contents history_dict hr hp hall
    simp [make_train_histograms, hr, hp, hfilter history_dict hall,
      aggregate_backtest_stats]

/-- A run rejected by the weight filter: its second initial weight
`4/5` exceeds `0.7`. -/
def overweightRun : TrainRun :=
  { dynamic := ⟨1, 0, 0⟩
    static := ⟨1, 0, 0⟩
    eq_weight := ⟨1, 0, 0⟩
    initial_weights := [1/5, 4/5]
    asset_list := ["ETH"]
    test_start := none
    test_end := none
    trading_period_length := none }

theorem keepRun_overweightRun : keepRun overweightRun = false := by
  have h7 : (7 : ℚ)/10 < 4/5 := by norm_num
  have h1 : ¬ ((1 : ℚ)/5 < 0) := by norm_num
  have h2 : ¬ ((4 : ℚ)/5 < 0) := by norm_num
  simp [keepRun, overweightRun, h7, h1, h2]

theorem keepRun_all_false_singleton :
    ∀ p ∈ [("20190101", overweightRun)], keepRun p.2 = false := by
  intro p hp
  rcases List.mem_singleton.mp hp with rfl
  exact keepRun_overweightRun

/-- Witness for C8 on a one-run history that the filter empties. -/
theorem aggregate_backtest_stats_needs_nonempty_witness :
    (∀ p ∈ [("20190101", overweightRun)], keepRun p.2 = false) ∧
    aggregate_backtest_stats (filter_history_dict [("20190101", overweightRun)]) = none ∧
    make_train_histograms (fun _ => Except.ok "contents")
        (fun _ => Except.ok [("20190101", overweightRun)]) "session" =
      Except.error "IndexError: list index out of range" :=
  ⟨keepRun_all_false_singleton,
   aggregate_backtest_stats_needs_nonempty.2.1 [("20190101", overweightRun)]
     keepRun_all_false_singleton,
   aggregate_backtest_stats_needs_nonempty.2.2 (fun _ => Except.ok "contents")
     (fun _ => Except.ok [("20190101", overweightRun)]) "session" "contents"
     [("20190101", overweightRun)] rfl rfl keepRun_all_false_singleton⟩

/-- C6: the fixed I/O paths.  `make_train_histograms` reads the history
JSON from `train_jsons/train_history_<session_name>.json` and, on
success, writes its PNG to `train_histograms/histogram_<session_name>.png`
(the first component of any successful result is that path);
`plot_train_results` writes its PNG to
`train_graphs/train_results_<name>.png` where `<name>` is the session
name if given, else `"test"` in test mode, else the current timestamp. -/
theorem fixed_io_paths (s n ts : String) (tm : Option Bool)
    (read_file : String → Except String String)
    (parse_json : String → Except String History) :
    json_path s = "train_jsons/train_history_" ++ s ++ ".json" ∧
    histogram_output_path s = "train_histograms/histogram_" ++ s ++ ".png" ∧
    (make_train_histograms read_file parse_json s).map Prod.fst =
      (make_train_histograms read_file parse_json s).map
        (fun _ => "train_histograms/histogram_" ++ s ++ ".png") ∧
    plot_output_path n = "train_graphs/train_results_" ++ n ++ ".png" ∧
    plot_output_fn (some n) tm ts = n ∧
    plot_output_fn none (some true) ts = "test" ∧
    plot_output_fn none (some false) ts = ts ∧
    plot_output_fn none none ts = ts := by
  have hj : json_path s = "train_jsons/train_history_" ++ s ++ ".json" := by
    rw [json_path, JSON_OUTPUT_DIR, ← str_append_assoc, ← str_append_assoc,
      show ("train_jsons/" ++ "train_history_" : String) = "train_jsons/train_history_"
        from rfl]
  have hh : histogram_output_path s = "train_histograms/histogram_" ++ s ++ ".png" := by
    rw [histogram_output_path, HISTOGRAM_OUTPUT_DIR, ← str_append_assoc,
      ← str_append_assoc,
      show ("train_histograms/" ++ "histogram_" : String) = "train_histograms/histogram_"
        from rfl]
  refine ⟨hj, hh, ?_, ?_, rfl, rfl, rfl, rfl⟩
  · rcases hr : read_file (json_path s) with e | contents
    · simp [make_train_histograms, hr, Except.map]
    · rcases hp : parse_json contents with e | history_dict
      · simp [make_train_histograms, hr, hp, Except.map]
      · rcases ha : aggregate_backtest_stats (filter_history_dict history_dict)
          with _ | stats
        · simp [make_train_histograms, hr, hp, ha, Except.map]
        · simp [make_train_histograms, hr, hp, ha, Except.map, hh]
  · rw [plot_output_path, OUTPUT_DIR, ← str_append_assoc, ← str_append_assoc,
      show ("train_graphs/" ++ "train_results_" : String) = "train_graphs/train_results_"
        from rfl]

/-- Python `round(x, 4)`: rounding to four decimal places.  (Python uses
round-half-even on binary floats; under the exact-arithmetic embedding a
tie-breaking convention must be fixed and Lean's `round` is used.  No
claim depends on the tie behaviour.) -/
noncomputable def round4 (x : ℝ) : ℝ := (round (x * 10000) : ℤ) / 10000

/-- Embedding of `np.mean` on a list of reals: the arithmetic mean. -/
noncomputable def npMeanR (l : List ℝ) : ℝ := l.sum / l.length

/-- Population variance on a list of reals. -/
noncomputable def npVarR (l : List ℝ) : ℝ :=
  npMeanR (l.map fun x => (x - npMeanR l) ^ 2)

/-- Embedding of `np.std` on a list of reals: the population standard deviation. -/
noncomputable def npStdR (l : List ℝ) : ℝ := Real.sqrt (npVarR l)

/-- The cast of a rational metric list into the reals, as the table code
consumes the aggregated lists. -/
def toRealList (l : List ℚ) : List ℝ := l.map fun q => (q : ℝ)

/-- The `dynamic_data` cell rows of `_plot_histogram_metadata_table`
(`make_train_histograms.py` lines 215-246): for each metric the row
label, the `round(np.mean(...), 4)` cell and the `round(np.std(...), 4)`
cell. -/
noncomputable def dynamic_data (stats : BacktestStats) : List (String × ℝ × ℝ) :=
  [("Ptf. value",
      round4 (npMeanR (toRealList stats.dynamic_pf_values)),
      round4 (npStdR (toRealList stats.dynamic_pf_values))),
   ("Sharpe ratio",
      round4 (npMeanR (toRealList stats.dynamic_sharpe_ratios)),
      round4 (npStdR (toRealList stats.dynamic_sharpe_ratios))),
   ("MDD",
      round4 (npMeanR (toRealList stats.dynamic_mdds)),
      round4 (npStdR (toRealList stats.dynamic_mdds))),
   ("Average of weights",
      round4 (npMeanR (toRealList stats.crypto_weight_averages)),
      round4 (npStdR (toRealList stats.crypto_weight_averages))),
   ("Stdev of weights",
      round4 (npMeanR stats.crypto_weight_std_devs),
      round4 (npStdR stats.crypto_weight_std_devs)),
   ("Cash weight (BTC)",
      round4 (npMeanR (toRealList stats.cash_investments)),
      round4 (npStdR (toRealList stats.cash_investments)))]

/-- The `static_data` cell rows of `_plot_histogram_metadata_table`
(lines 258-289): the static-agent metrics, then the same three
weight-derived rows computed from the same shared lists. -/
noncomputable def static_data (stats : BacktestStats) : List (String × ℝ × ℝ) :=
  [("Ptf. value",
      round4 (npMeanR (toRealList stats.static_pf_values)),
      round4 (npStdR (toRealList stats.static_pf_values))),
   ("Sharpe ratio",
      round4 (npMeanR (toRealList stats.static_sharpe_ratios)),
      round4 (npStdR (toRealList stats.static_sharpe_ratios))),
   ("MDD",
      round4 (npMeanR (toRealList stats.static_mdds)),
      round4 (npStdR (toRealList stats.static_mdds))),
   ("Average of weights",
      round4 (npMeanR (toRealList stats.crypto_weight_averages)),
      round4 (npStdR (toRealList stats.crypto_weight_averages))),
   ("Stdev of weights",
      round4 (npMeanR stats.crypto_weight_std_devs),
      round4 (npStdR stats.crypto_weight_std_devs)),
   ("Cash weight (BTC)",
      round4 (npMeanR (toRealList stats.cash_investments)),
      round4 (npStdR (toRealList stats.cash_investments)))]

/-- C7: in the simulation-statistics tables, every Average cell is
the arithmetic mean and every Stdev cell the population standard
deviation of the corresponding aggregated metric list, rounded to 4
decimal places; and because the `Average of weights`, `Stdev of weights`
and `Cash weight (BTC)` rows of both tables are computed from the same
shared lists, the last three rows of the dynamic-agent and static-agent
tables are identical. -/
theorem histogram_metadata_table_cells (stats : BacktestStats) :
    ((dynamic_data stats).map fun row => row.2.1) =
      [round4 (npMeanR (toRealList stats.dynamic_pf_values)),
       round4 (npMeanR (toRealList stats.dynamic_sharpe_ratios)),
       round4 (npMeanR (toRealList stats.dynamic_mdds)),
       round4 (npMeanR (toRealList stats.crypto_weight_averages)),
       round4 (npMeanR stats.crypto_weight_std_devs),
       round4 (npMeanR (toRealList stats.cash_investments))] ∧
    ((dynamic_data stats).map fun row => row.2.2) =
      [round4 (npStdR (toRealList stats.dynamic_pf_values)),
       round4 (npStdR (toRealList stats.dynamic_sharpe_ratios)),
       round4 (npStdR (toRealList stats.dynamic_mdds)),
       round4 (npStdR (toRealList stats.crypto_weight_averages)),
       round4 (npStdR stats.crypto_weight_std_devs),
       round4 (npStdR (toRealList stats.cash_investments))] ∧
    ((static_data stats).map fun row => row.2.1) =
      [round4 (npMeanR (toRealList stats.static_pf_values)),
       round4 (npMeanR (toRealList stats.static_sharpe_ratios)),
       round4 (npMeanR (toRealList stats.static_mdds)),
       round4 (npMeanR (toRealList stats.crypto_weight_averages)),
       round4 (npMeanR stats.crypto_weight_std_devs),
       round4 (npMeanR (toRealList stats.cash_investments))] ∧
    ((static_data stats).map fun row => row.2.2) =
      [round4 (npStdR (toRealList stats.static_pf_values)),
       round4 (npStdR (toRealList stats.static_sharpe_ratios)),
       round4 (npStdR (toRealList stats.static_mdds)),
       round4 (npStdR (toRealList stats.crypto_weight_averages)),
       round4 (npStdR stats.crypto_weight_std_devs),
       round4 (npStdR (toRealList stats.cash_investments))] ∧
    (dynamic_data stats).drop 3 = (static_data stats).drop 3 :=
  ⟨rfl, rfl, rfl, rfl, rfl⟩

/-- The positional parameter list of the `plot_train_results` definition
(`plot_train_results.py` lines 24-31).  All six parameters are required:
none has a default. -/
def plot_train_results_params : List String :=
  ["train_configs", "train_performance_lists", "test_performance_lists",
   "asset_list", "train_time_secs", "train_test_val_steps"]

/-- The positional arguments of the `plot_train_results(...)` call in
`main` (`deep_rl_portfolio.py` lines 58-65): the session configurations,
then the TEST performance lists, then the TRAIN performance lists, then
the string literal `"stocks"`, then the asset list — five arguments. -/
def main_plot_call_args : List String :=
  ["train_configs", "test_performance_lists", "train_performance_lists",
   "str_literal_stocks", "asset_list"]

/-- Python positional-call binding for a signature with no defaults and
no varargs: parameters bind to arguments pairwise, and the call raises
`TypeError` when the counts differ. -/
def bindCall (params args : List String) : Option (List (String × String)) :=
  if params.length = args.length then some (params.zip args) else none

/-- The possible outcomes of the plotting step at the end of `main`. -/
inductive PlotCall where
  | notCalled
  | typeError
  | called (bound : List (String × String))
  deriving Repr, DecidableEq

/-- The plotting step of `main` (`deep_rl_portfolio.py` lines 58-65):
when `train_configs["plot_results"]` is false the call is skipped,
otherwise `plot_train_results` is invoked with `main_plot_call_args`. -/
def main_plot_step (plot_results : Bool) : PlotCall :=
  if plot_results then
    match bindCall plot_train_results_params main_plot_call_args with
    | none => PlotCall.typeError
    | some bound => PlotCall.called bound
  else PlotCall.notCalled

/-- C4 (code-bug evidence): with `plot_results` true, `main`'s call to
`plot_train_results` passes 5 positional arguments where the signature
requires 6 (`train_test_val_steps` has no argument), so the call raises
`TypeError` instead of rendering the comparison plot; moreover the five
arguments that are passed are misaligned (the test performance lists sit
in the train parameter and vice versa, and the literal `"stocks"` sits
in the asset-list parameter).  With `plot_results` false the function is
indeed not called. -/
theorem main_plot_call_type_error :
    main_plot_step true = PlotCall.typeError ∧
    main_plot_step false = PlotCall.notCalled ∧
    plot_train_results_params.length = 6 ∧
    main_plot_call_args.length = 5 ∧
    plot_train_results_params.zip main_plot_call_args =
      [("train_configs", "train_configs"),
       ("train_performance_lists", "test_performance_lists"),
       ("test_performance_lists", "train_performance_lists"),
       ("asset_list", "str_literal_stocks"),
       ("train_time_secs", "asset_list")] :=
  ⟨rfl, rfl, rfl, rfl, rfl⟩

/-- C10: `filter_history_dict` is idempotent and contracting: filtering
its own output returns the output unchanged, and the output is a sublist
of the input (no entry is added, rekeyed or modified). -/
theorem filter_history_dict_idem_sublist (h : History) :
    filter_history_dict (filter_history_dict h) = filter_history_dict h ∧
    (filter_history_dict h).Sublist h := by
  constructor
  · simp [filter_history_dict, List.filter_filter]
  · exact List.filter_sublist h

end DrlCrypto
